import Mathlib

/-!
Shallow embedding of the authentication and credential-lifecycle subsystem of
the Equestrian Marketplace backend: the `User` model
(backend/src/models/user.js), the `UserRepository`
(backend/src/repositories/userRepository.js), the `UserService`
(backend/src/services/userService.js), and the controllers
(backend/src/controllers/authController.js, userController.js) together with
the auth middleware (backend/src/middleware/authMiddleware.js).

Database state is a list of snake_case `users` rows; timestamps are
milliseconds since the epoch; the nondeterministic inputs the code draws from
its environment (uuidv4, crypto.randomBytes token, bcrypt salt, the clock,
the JWT secret and TTL) are packaged in an explicit `Env` and threaded to the
operations that consume them.
-/

namespace EquestrianAuth

/-- JavaScript values that flow through the dynamic `updates` objects handed
to `UserRepository.update` (strings, booleans, `Date`s, `null`, and present
keys holding `undefined`). -/
inductive JsVal where
  | vstr (s : String)
  | vbool (b : Bool)
  | vdate (t : Nat)
  | vnull
  | vundefined
deriving DecidableEq, Repr

/-- JavaScript truthiness of a `JsVal`: empty strings, `false`, `null` and
`undefined` are falsy; `Date` objects are always truthy. -/
def JsVal.truthy : JsVal → Bool
  | .vstr s => s ≠ ""
  | .vbool b => b
  | .vdate _ => true
  | .vnull => false
  | .vundefined => false

/-- Property lookup `obj[k]` on a JS object modelled as an association list:
an absent key reads as `undefined`. -/
def jsGet (obj : List (String × JsVal)) (k : String) : JsVal :=
  match obj.find? (fun kv => kv.1 = k) with
  | some kv => kv.2
  | none => .vundefined

/-- JS `v || d` for a possibly-absent string value: `undefined`, `null` and
the empty string all fall through to the default. -/
def jsStrOr (v : Option String) (d : String) : String :=
  match v with
  | some s => if s = "" then d else s
  | none => d

/-- JS `v || null` for a possibly-absent string value. -/
def jsStrOrNull (v : Option String) : Option String :=
  match v with
  | some s => if s = "" then none else some s
  | none => none

/-- One snake_case row of the `users` table
(migrations/001_create_users_table.js): `phone`, `business_name`,
`verification_token`, `reset_password_token` and `reset_password_expires` are
nullable, every other column is NOT NULL. -/
structure DbRow where
  id : String
  email : String
  password_hash : String
  first_name : String
  last_name : String
  phone : Option String
  user_type : String
  business_name : Option String
  created_at : Nat
  updated_at : Nat
  is_verified : Bool
  verification_token : Option String
  reset_password_token : Option String
  reset_password_expires : Option Nat
deriving DecidableEq, Repr

/-- The camelCase property bag the `User` constructor receives; absent keys
read as `undefined` (`none`). `email` is present in every constructing call
site of the source. -/
structure UserData where
  id : Option String := none
  email : String
  passwordHash : Option String := none
  firstName : Option String := none
  lastName : Option String := none
  phone : Option String := none
  userType : Option String := none
  businessName : Option String := none
  createdAt : Option Nat := none
  updatedAt : Option Nat := none
  isVerified : Option Bool := none
  verificationToken : Option String := none
  resetPasswordToken : Option String := none
  resetPasswordExpires : Option Nat := none

/-- In-memory `User` model instance (models/user.js): the field types reflect
what the constructor can actually produce (`firstName` may be `undefined`
when the constructor was fed an object without that key). -/
structure User where
  id : String
  email : String
  passwordHash : String
  firstName : Option String
  lastName : Option String
  phone : Option String
  userType : String
  businessName : Option String
  createdAt : Nat
  updatedAt : Nat
  isVerified : Bool
  verificationToken : Option String
  resetPasswordToken : Option String
  resetPasswordExpires : Option Nat
deriving DecidableEq, Repr

/-- The `User` constructor (models/user.js, lines 20-35): each field is
`data.field || default`; `freshId` stands for the `uuidv4()` call and `now`
for `new Date()`. `createdAt`, `updatedAt` and `resetPasswordExpires` hold
`Date` objects, which are truthy even at epoch 0. -/
def User.ofData (d : UserData) (freshId : String) (now : Nat) : User :=
  { id := jsStrOr d.id freshId
    email := d.email
    passwordHash := jsStrOr d.passwordHash ""
    firstName := d.firstName
    lastName := d.lastName
    phone := jsStrOrNull d.phone
    userType := jsStrOr d.userType "buyer"
    businessName := jsStrOrNull d.businessName
    createdAt := d.createdAt.getD now
    updatedAt := d.updatedAt.getD now
    isVerified := d.isVerified.getD false
    verificationToken := jsStrOrNull d.verificationToken
    resetPasswordToken := jsStrOrNull d.resetPasswordToken
    resetPasswordExpires := d.resetPasswordExpires }

/-- The property bag the `User` constructor sees when it is handed a RAW
snake_case database row, as `UserRepository.findById` and `findByEmail` do:
only the keys whose camelCase and snake_case spellings coincide (`id`,
`email`, `phone`) are found; every other camelCase read yields `undefined`. -/
def rawRowToUserData (r : DbRow) : UserData :=
  { id := some r.id, email := r.email, phone := r.phone }

/-- `UserRepository.mapDbUserToModel` (userRepository.js, lines 267-284):
explicit snake_case to camelCase mapping of a database row. -/
def mapDbUserToModel (r : DbRow) : UserData :=
  { id := some r.id
    email := r.email
    passwordHash := some r.password_hash
    firstName := some r.first_name
    lastName := some r.last_name
    phone := r.phone
    userType := some r.user_type
    businessName := r.business_name
    createdAt := some r.created_at
    updatedAt := some r.updated_at
    isVerified := some r.is_verified
    verificationToken := r.verification_token
    resetPasswordToken := r.reset_password_token
    resetPasswordExpires := r.reset_password_expires }

/-- Consume an expected literal from the front of a character list, returning
the remainder, or `none` if the literal is not a prefix. -/
def consumeLit : List Char → List Char → Option (List Char)
  | [], cs => some cs
  | _ :: _, [] => none
  | p :: ps, c :: cs => if p = c then consumeLit ps cs else none

/-- Split a character list at its first dollar sign. -/
def splitFirstDollar : List Char → Option (List Char × List Char)
  | [] => none
  | c :: cs =>
    if c = '$' then some ([], cs)
    else
      match splitFirstDollar cs with
      | none => none
      | some (a, b) => some (c :: a, b)

/-- Model of `bcrypt.hash(pw, 10)`: an opaque string embedding the algorithm
header, the salt drawn from the environment, and a digest of the password
(kept as the password itself so that compare is definable; only its
functional behaviour matters to the claims). -/
def bcryptHash (salt : Nat) (pw : String) : String :=
  "$2b$10$" ++ toString salt ++ "$" ++ pw

/-- Model of `bcrypt.compare(pw, h)`: parses the salt section out of the
stored hash and checks the digest; returns `false` on any malformed stored
hash — in particular on the empty string, as the real bcrypt does. -/
def bcryptCompare (pw h : String) : Bool :=
  match consumeLit "$2b$10$".data h.data with
  | none => false
  | some rest =>
    match splitFirstDollar rest with
    | none => false
    | some x => x.2 == pw.data

/-- Environmental inputs of one operation: the `uuidv4()` draw, the
`crypto.randomBytes(32).toString(hex)` draw, the bcrypt salt, the current
time in milliseconds, and the process-wide JWT configuration
(`JWT_SECRET`, `JWT_EXPIRES_IN`). -/
structure Env where
  freshId : String
  freshToken : String
  salt : Nat
  now : Nat
  jwtSecret : String
  jwtTtl : Nat
deriving Repr

/-- Claims carried by a session token, as built by
`UserService.generateJWT` (userService.js, lines 381-391). -/
structure JwtPayload where
  id : String
  email : String
  userType : String
deriving DecidableEq, Repr

/-- A signed session token: payload, signing secret, and absolute expiry. -/
structure Jwt where
  payload : JwtPayload
  secret : String
  expiresAt : Nat
deriving DecidableEq, Repr

/-- `jwt.sign(payload, secret, \x7b expiresIn \x7d)`. -/
def jwtSign (payload : JwtPayload) (secret : String) (now ttl : Nat) : Jwt :=
  { payload := payload, secret := secret, expiresAt := now + ttl }

/-- Outcomes of `jwt.verify`: `JsonWebTokenError` for a bad signature,
`TokenExpiredError` past expiry. -/
inductive JwtError where
  | invalidToken
  | expiredToken
deriving DecidableEq, Repr

/-- `jwt.verify(token, secret)`: signature first, then expiry. -/
def jwtVerify (t : Jwt) (secret : String) (now : Nat) : Except JwtError JwtPayload :=
  if t.secret ≠ secret then .error .invalidToken
  else if t.expiresAt ≤ now then .error .expiredToken
  else .ok t.payload

/-- Failures surfaced by the PostgreSQL layer or by the JavaScript runtime
inside `UserRepository`: constraint violations raised by the database, a
`TypeError` from mapping the absent row of an empty `RETURNING` set, and a
catch-all for a parameter the column type rejects. -/
inductive RepoError where
  | notNullViolation
  | uniqueViolation
  | typeError
  | badValue
deriving DecidableEq, Repr

/-- `UserRepository.findById` (userRepository.js, lines 117-126): first row
with the id, handed RAW (without `mapDbUserToModel`) to the `User`
constructor; `null` when no row matches. -/
def UserRepository.findById (env : Env) (store : List DbRow) (id : String) :
    Option User :=
  match store.filter (fun r => r.id = id) with
  | [] => none
  | r :: _ => some (User.ofData (rawRowToUserData r) env.freshId env.now)

/-- `UserRepository.findByEmail` (userRepository.js, lines 133-142): first
row with the email, handed RAW (without `mapDbUserToModel`) to the `User`
constructor; `null` when no row matches. -/
def UserRepository.findByEmail (env : Env) (store : List DbRow) (email : String) :
    Option User :=
  match store.filter (fun r => r.email = email) with
  | [] => none
  | r :: _ => some (User.ofData (rawRowToUserData r) env.freshId env.now)

/-- The row INSERTed for a user by `UserRepository.create`: the twelve
listed columns from the `User` instance (the reset columns default to
NULL). -/
def insertedRow (u : User) (fn ln : String) : DbRow :=
  { id := u.id
    email := u.email
    password_hash := u.passwordHash
    first_name := fn
    last_name := ln
    phone := u.phone
    user_type := u.userType
    business_name := u.businessName
    created_at := u.createdAt
    updated_at := u.updatedAt
    is_verified := u.isVerified
    verification_token := u.verificationToken
    reset_password_token := none
    reset_password_expires := none }

/-- `UserRepository.create` (userRepository.js, lines 149-176): INSERT of the
twelve listed columns (the reset-token columns default to NULL), subject to
the NOT NULL constraints on `first_name`/`last_name` and the UNIQUE
constraint on `email`; the RETURNING row goes through `mapDbUserToModel` and
the `User` constructor. -/
def UserRepository.create (env : Env) (store : List DbRow) (u : User) :
    Except RepoError (List DbRow × User) :=
  match u.firstName, u.lastName with
  | some fn, some ln =>
    if store.any (fun r => r.email = u.email) then .error .uniqueViolation
    else
      .ok (store ++ [insertedRow u fn ln],
        User.ofData (mapDbUserToModel (insertedRow u fn ln)) env.freshId env.now)
  | _, _ => .error .notNullViolation

/-- JS `key.replace(/([A-Z])/g, "_$1").toLowerCase()` from
`UserRepository.update`. -/
def camelToSnake (k : String) : String :=
  String.mk (k.data.foldr
    (fun c acc => if c.isUpper then '_' :: c.toLower :: acc else c :: acc) [])

/-- The `validFields` whitelist of `UserRepository.update` (userRepository.js,
lines 190-194). -/
def validFields : List String :=
  ["email", "password_hash", "first_name", "last_name",
   "phone", "user_type", "business_name", "is_verified",
   "verification_token", "reset_password_token", "reset_password_expires"]

/-- One SET assignment `col = value` of `UserRepository.update`, with the
node-postgres parameter conversion (`undefined` is sent as NULL) and the
column constraints of the schema: NULL on a NOT NULL column and a value the
column type rejects are database errors. -/
def setCol (r : DbRow) (col : String) (v : JsVal) : Except RepoError DbRow :=
  if col = "email" then
    match v with
    | .vstr s => .ok { r with email := s }
    | .vnull | .vundefined => .error .notNullViolation
    | _ => .error .badValue
  else if col = "password_hash" then
    match v with
    | .vstr s => .ok { r with password_hash := s }
    | .vnull | .vundefined => .error .notNullViolation
    | _ => .error .badValue
  else if col = "first_name" then
    match v with
    | .vstr s => .ok { r with first_name := s }
    | .vnull | .vundefined => .error .notNullViolation
    | _ => .error .badValue
  else if col = "last_name" then
    match v with
    | .vstr s => .ok { r with last_name := s }
    | .vnull | .vundefined => .error .notNullViolation
    | _ => .error .badValue
  else if col = "phone" then
    match v with
    | .vstr s => .ok { r with phone := some s }
    | .vnull | .vundefined => .ok { r with phone := none }
    | _ => .error .badValue
  else if col = "user_type" then
    match v with
    | .vstr s => .ok { r with user_type := s }
    | .vnull | .vundefined => .error .notNullViolation
    | _ => .error .badValue
  else if col = "business_name" then
    match v with
    | .vstr s => .ok { r with business_name := some s }
    | .vnull | .vundefined => .ok { r with business_name := none }
    | _ => .error .badValue
  else if col = "is_verified" then
    match v with
    | .vbool b => .ok { r with is_verified := b }
    | .vnull | .vundefined => .error .notNullViolation
    | _ => .error .badValue
  else if col = "verification_token" then
    match v with
    | .vstr s => .ok { r with verification_token := some s }
    | .vnull | .vundefined => .ok { r with verification_token := none }
    | _ => .error .badValue
  else if col = "reset_password_token" then
    match v with
    | .vstr s => .ok { r with reset_password_token := some s }
    | .vnull | .vundefined => .ok { r with reset_password_token := none }
    | _ => .error .badValue
  else if col = "reset_password_expires" then
    match v with
    | .vdate t => .ok { r with reset_password_expires := some t }
    | .vnull | .vundefined => .ok { r with reset_password_expires := none }
    | _ => .error .badValue
  else .error .badValue

/-- Execute an UPDATE over the table: every row matching the id is rewritten
by `apply`, the others are kept; the first component of the result is the new
table, the second the RETURNING set in table order. -/
def updateRows (apply : DbRow → Except RepoError DbRow) (id : String) :
    List DbRow → Except RepoError (List DbRow × List DbRow)
  | [] => .ok ([], [])
  | r :: rest =>
    if r.id = id then
      match apply r with
      | .error e => .error e
      | .ok r2 =>
        match updateRows apply id rest with
        | .error e => .error e
        | .ok (all, upd) => .ok (r2 :: all, r2 :: upd)
    else
      match updateRows apply id rest with
      | .error e => .error e
      | .ok (all, upd) => .ok (r :: all, upd)

/-- Apply a list of SET assignments to a row, left to right, stopping at the
first database error. -/
def applyAssignments : List (String × JsVal) → DbRow → Except RepoError DbRow
  | [], r => .ok r
  | kv :: rest, r =>
    match setCol r kv.1 kv.2 with
    | .error e => .error e
    | .ok r2 => applyAssignments rest r2

/-- The SET clause of `UserRepository.update` applied to one row: the update
object's entries are snake_cased, filtered through `validFields`, applied in
order, and `updated_at` is always stamped last. -/
def applySetClause (now : Nat) (updates : List (String × JsVal)) (r : DbRow) :
    Except RepoError DbRow :=
  match applyAssignments
      ((updates.map (fun kv => (camelToSnake kv.1, kv.2))).filter
        (fun kv => validFields.contains kv.1)) r with
  | .error e => .error e
  | .ok r2 => .ok { r2 with updated_at := now }

/-- `UserRepository.update` (userRepository.js, lines 184-221): dynamic SET
clause over the whitelisted snake_cased keys, WHERE id matches, RETURNING *.
When no row matches the id, `result.rows[0]` is `undefined` and
`mapDbUserToModel` throws a `TypeError`; otherwise the first returned row is
mapped and re-wrapped as a `User`. -/
def UserRepository.update (env : Env) (store : List DbRow) (id : String)
    (updates : List (String × JsVal)) : Except RepoError (List DbRow × User) :=
  match updateRows (applySetClause env.now updates) id store with
  | .error e => .error e
  | .ok (all, upd) =>
    match upd with
    | [] => .error .typeError
    | r :: _ => .ok (all, User.ofData (mapDbUserToModel r) env.freshId env.now)

/-- The row rewrite of the email-verification UPDATE: set `is_verified`,
clear `verification_token`, stamp `updated_at`. -/
def consumeVerifyRow (env : Env) (r : DbRow) : DbRow :=
  { r with is_verified := true, verification_token := none, updated_at := env.now }

/-- `UserRepository.verifyEmail` (userRepository.js, lines 245-260): a single
UPDATE that sets `is_verified`, clears `verification_token` and stamps
`updated_at` on EVERY row holding the token, returning `null` when no row
matched and otherwise the first updated row mapped through
`mapDbUserToModel`. -/
def UserRepository.verifyEmail (env : Env) (store : List DbRow) (token : String) :
    Option (List DbRow × User) :=
  match store.filter (fun r => r.verification_token = some token) with
  | [] => none
  | r :: _ =>
    some (store.map (fun r0 =>
        if r0.verification_token = some token then consumeVerifyRow env r0 else r0),
      User.ofData (mapDbUserToModel (consumeVerifyRow env r)) env.freshId env.now)

/-- JSON values appearing in serialized user views. -/
inductive JVal where
  | jstr (s : String)
  | jbool (b : Bool)
  | jnum (n : Nat)
  | jnull
deriving DecidableEq, Repr

/-- Serialize a possibly-null string field. -/
def jOptStr : Option String → JVal
  | some s => .jstr s
  | none => .jnull

/-- Serialize a possibly-null timestamp field. -/
def jOptNum : Option Nat → JVal
  | some t => .jnum t
  | none => .jnull

/-- The own properties of a `User` instance, in constructor assignment
order: this is the object that rest-destructuring in `toJSON` sees. -/
def User.fields (u : User) : List (String × JVal) :=
  [("id", .jstr u.id),
   ("email", .jstr u.email),
   ("passwordHash", .jstr u.passwordHash),
   ("firstName", jOptStr u.firstName),
   ("lastName", jOptStr u.lastName),
   ("phone", jOptStr u.phone),
   ("userType", .jstr u.userType),
   ("businessName", jOptStr u.businessName),
   ("createdAt", .jnum u.createdAt),
   ("updatedAt", .jnum u.updatedAt),
   ("isVerified", .jbool u.isVerified),
   ("verificationToken", jOptStr u.verificationToken),
   ("resetPasswordToken", jOptStr u.resetPasswordToken),
   ("resetPasswordExpires", jOptNum u.resetPasswordExpires)]

/-- The three key names `User.toJSON` strips. -/
def secretFields : List String :=
  ["passwordHash", "verificationToken", "resetPasswordToken"]

/-- `User.toJSON` (models/user.js, lines 66-69): rest-destructuring that
drops exactly `passwordHash`, `verificationToken` and `resetPasswordToken`
and keeps every other own property. -/
def User.toJSON (u : User) : List (String × JVal) :=
  u.fields.filter (fun kv => ¬ secretFields.contains kv.1)

/-- Typed failures thrown by `UserService` and the controllers, one per
distinct error message of the source, plus propagated repository failures and
the `ReferenceError` raised when `updateProfile` touches the out-of-scope
`bcrypt` binding. -/
inductive AuthError where
  | conflict
  | weakPassword
  | invalidCredentials
  | emailNotVerified
  | invalidOrExpiredToken
  | repoFailure (e : RepoError)
  | referenceError
deriving DecidableEq, Repr

/-- `UserService.validatePassword` (userService.js, lines 398-405): rejects a
falsy password or one shorter than 8 characters. -/
def validPassword (pw : String) : Bool :=
  ¬ (pw = "" ∨ pw.length < 8)

/-- Registration request body as destructured by `AuthController.register`:
the first four fields are required by the controller, the last three
optional. -/
structure RegisterData where
  email : String
  password : String
  firstName : Option String
  lastName : Option String
  phone : Option String := none
  userType : Option String := none
  businessName : Option String := none

/-- `User.create` (models/user.js, lines 42-51) as called by
`UserService.registerUser`: bcrypt-hash the password, then run the
constructor on the registration data extended with
`verificationToken` and `isVerified: false`. -/
def User.createFromRegistration (env : Env) (d : RegisterData) (tok : String) : User :=
  User.ofData
    { email := d.email
      passwordHash := some (bcryptHash env.salt d.password)
      firstName := d.firstName
      lastName := d.lastName
      phone := d.phone
      userType := d.userType
      businessName := d.businessName
      verificationToken := some tok
      isVerified := some false }
    env.freshId env.now

/-- `UserService.registerUser` (userService.js, lines 200-230): duplicate
email check via `findByEmail`, password policy, token generation, user
creation and persistence; the verification mail dispatch has no effect on the
store. Returns the saved user and the verification token. -/
def UserService.registerUser (env : Env) (store : List DbRow) (d : RegisterData) :
    Except AuthError (List DbRow × User × String) :=
  match UserRepository.findByEmail env store d.email with
  | some _ => .error .conflict
  | none =>
    if ¬ validPassword d.password then .error .weakPassword
    else
      match UserRepository.create env store (User.createFromRegistration env d env.freshToken) with
      | .error e => .error (.repoFailure e)
      | .ok (store2, saved) => .ok (store2, saved, env.freshToken)

/-- `UserService.loginUser` (userService.js, lines 238-263): `findByEmail`,
then `user.verifyPassword` (bcrypt compare against the loaded
`passwordHash`), then the `isVerified` gate, then JWT issuance; the success
value carries the sanitized `user.toJSON()` and the token. -/
def UserService.loginUser (env : Env) (store : List DbRow) (email pw : String) :
    Except AuthError (List (String × JVal) × Jwt) :=
  match UserRepository.findByEmail env store email with
  | none => .error .invalidCredentials
  | some user =>
    if ¬ bcryptCompare pw user.passwordHash then .error .invalidCredentials
    else if ¬ user.isVerified then .error .emailNotVerified
    else
      .ok (user.toJSON,
        jwtSign { id := user.id, email := user.email, userType := user.userType }
          env.jwtSecret env.now env.jwtTtl)

/-- `UserService.verifyEmail` (userService.js, lines 270-276): delegate to
the repository UPDATE; a null result becomes the invalid-or-expired-token
error. -/
def UserService.verifyEmail (env : Env) (store : List DbRow) (token : String) :
    Except AuthError (List DbRow × User) :=
  match UserRepository.verifyEmail env store token with
  | none => .error .invalidOrExpiredToken
  | some res => .ok res

/-- `UserService.requestPasswordReset` (userService.js, lines 283-313): an
unknown email silently succeeds; a known one gets a fresh reset token and a
one-hour expiry written through `UserRepository.update`, and a reset mail
(no store effect). -/
def UserService.requestPasswordReset (env : Env) (store : List DbRow) (email : String) :
    Except AuthError (List DbRow) :=
  match UserRepository.findByEmail env store email with
  | none => .ok store
  | some user =>
    match UserRepository.update env store user.id
        [("resetPasswordToken", .vstr env.freshToken),
         ("resetPasswordExpires", .vdate (env.now + 3600000))] with
    | .error e => .error (.repoFailure e)
    | .ok (store2, _) => .ok store2

/-- `UserService.resetPassword` (userService.js, lines 321-347): raw SELECT
for a row whose `reset_password_token` matches AND whose
`reset_password_expires` is strictly in the future; then password policy,
bcrypt hash, and one UPDATE storing the new hash and clearing both reset
columns. -/
def UserService.resetPassword (env : Env) (store : List DbRow) (token newPassword : String) :
    Except AuthError (List DbRow) :=
  match store.filter (fun r =>
      r.reset_password_token == some token &&
      match r.reset_password_expires with
      | some e => decide (env.now < e)
      | none => false) with
  | [] => .error .invalidOrExpiredToken
  | r :: _ =>
    if ¬ validPassword newPassword then .error .weakPassword
    else
      match UserRepository.update env store
          (User.ofData (mapDbUserToModel r) env.freshId env.now).id
          [("passwordHash", .vstr (bcryptHash env.salt newPassword)),
           ("resetPasswordToken", .vnull),
           ("resetPasswordExpires", .vnull)] with
      | .error e => .error (.repoFailure e)
      | .ok (store2, _) => .ok store2

/-- `UserService.updateProfile` (userService.js, lines 355-366):
destructuring strips exactly the `password`, `passwordHash` and `isVerified`
keys; a truthy `password` value is then validated and handed to
`bcrypt.hash` — but `bcrypt` is not in scope in this method, so that branch
raises a `ReferenceError`; otherwise the remaining entries go to
`UserRepository.update` unfiltered. -/
def UserService.updateProfile (env : Env) (store : List DbRow) (userId : String)
    (updates : List (String × JsVal)) : Except AuthError (List DbRow × User) :=
  if (jsGet updates "password").truthy then
    match jsGet updates "password" with
    | .vstr s => if s.length < 8 then .error .weakPassword else .error .referenceError
    | _ => .error .referenceError
  else
    match UserRepository.update env store userId
        (updates.filter (fun kv =>
          kv.1 ≠ "password" ∧ kv.1 ≠ "passwordHash" ∧ kv.1 ≠ "isVerified")) with
    | .error e => .error (.repoFailure e)
    | .ok res => .ok res

/-- Shape of an HTTP response at the controller boundary: status code,
message, the serialized user view when one is sent, and the session token on
login. -/
structure Response where
  status : Nat
  message : Option String := none
  userView : Option (List (String × JVal)) := none
  token : Option Jwt := none
deriving DecidableEq, Repr

/-- `AuthController.register` (authController.js, lines 14-53): required-field
truthiness check, then the service call; the duplicate-email error maps to
409, the password-policy error to 400, anything else to 500; success is 201
with `user.toJSON()`. Returns the response and the store after the call. -/
def AuthController.register (env : Env) (store : List DbRow) (d : RegisterData) :
    Response × List DbRow :=
  if d.email = "" ∨ d.password = "" ∨
      jsStrOrNull d.firstName = none ∨ jsStrOrNull d.lastName = none then
    ({ status := 400, message := some "Missing required fields" }, store)
  else
    match UserService.registerUser env store d with
    | .ok (store2, user, _) =>
      ({ status := 201
         message := some "User registered successfully. Please check your email to verify your account."
         userView := some user.toJSON }, store2)
    | .error .conflict =>
      ({ status := 409, message := some "User with this email already exists" }, store)
    | .error .weakPassword =>
      ({ status := 400, message := some "Password must be at least 8 characters long" }, store)
    | .error _ =>
      ({ status := 500, message := some "Failed to register user" }, store)

/-- `AuthController.login` (authController.js, lines 60-88): required-field
check, then the service call; both credential failures map to 401 with their
distinct messages, anything else to 500. -/
def AuthController.login (env : Env) (store : List DbRow) (email password : String) :
    Response × List DbRow :=
  if email = "" ∨ password = "" then
    ({ status := 400, message := some "Email and password are required" }, store)
  else
    match UserService.loginUser env store email password with
    | .ok (view, tok) =>
      ({ status := 200, message := some "Login successful"
         userView := some view, token := some tok }, store)
    | .error .invalidCredentials =>
      ({ status := 401, message := some "Invalid email or password" }, store)
    | .error .emailNotVerified =>
      ({ status := 401, message := some "Please verify your email before logging in" }, store)
    | .error _ =>
      ({ status := 500, message := some "Failed to login" }, store)

/-- `AuthController.verifyEmail` (authController.js, lines 95-119): token
presence check, service call, 400 on the invalid-token error, 500 otherwise;
success is 200 with `user.toJSON()`. -/
def AuthController.verifyEmail (env : Env) (store : List DbRow) (token : String) :
    Response × List DbRow :=
  if token = "" then
    ({ status := 400, message := some "Verification token is required" }, store)
  else
    match UserService.verifyEmail env store token with
    | .ok (store2, user) =>
      ({ status := 200, message := some "Email verified successfully"
         userView := some user.toJSON }, store2)
    | .error .invalidOrExpiredToken =>
      ({ status := 400, message := some "Invalid or expired verification token" }, store)
    | .error _ =>
      ({ status := 500, message := some "Failed to verify email" }, store)

/-- `AuthController.requestPasswordReset` (authController.js, lines 126-145):
email presence check, then the service call; every non-throwing outcome gets
the same 200 with the same generic message. -/
def AuthController.requestPasswordReset (env : Env) (store : List DbRow) (email : String) :
    Response × List DbRow :=
  if email = "" then
    ({ status := 400, message := some "Email is required" }, store)
  else
    match UserService.requestPasswordReset env store email with
    | .ok store2 =>
      ({ status := 200
         message := some "If your email exists in our system, you will receive a password reset link" },
       store2)
    | .error _ =>
      ({ status := 500, message := some "Failed to process password reset request" }, store)

/-- `AuthController.resetPassword` (authController.js, lines 152-178). -/
def AuthController.resetPassword (env : Env) (store : List DbRow) (token password : String) :
    Response × List DbRow :=
  if token = "" ∨ password = "" then
    ({ status := 400, message := some "Token and password are required" }, store)
  else
    match UserService.resetPassword env store token password with
    | .ok store2 =>
      ({ status := 200, message := some "Password reset successfully" }, store2)
    | .error .invalidOrExpiredToken =>
      ({ status := 400, message := some "Invalid or expired reset token" }, store)
    | .error .weakPassword =>
      ({ status := 400, message := some "Password must be at least 8 characters long" }, store)
    | .error _ =>
      ({ status := 500, message := some "Failed to reset password" }, store)

/-- `UserController.getCurrentUser` (userController.js, lines 16-33): looks
the authenticated id up via `findById` and returns `user.toJSON()`, 404 when
absent. -/
def UserController.getCurrentUser (env : Env) (store : List DbRow) (userId : String) :
    Response × List DbRow :=
  match UserRepository.findById env store userId with
  | none => ({ status := 404, message := some "User not found" }, store)
  | some user => ({ status := 200, userView := some user.toJSON }, store)

/-- The four-field body `UserController.updateProfile` destructures from the
request. -/
structure ProfileBody where
  firstName : Option String := none
  lastName : Option String := none
  phone : Option String := none
  businessName : Option String := none

/-- A destructured body field as it re-enters an object literal: an absent
field becomes a present key holding `undefined`. -/
def jsOptVal : Option String → JsVal
  | some s => .vstr s
  | none => .vundefined

/-- `UserController.updateProfile` (userController.js, lines 40-65): forwards
exactly `firstName`, `lastName`, `phone`, `businessName` (absent ones as
`undefined`) to the service; any error becomes a 500; success is 200 with
`updatedUser.toJSON()`. -/
def UserController.updateProfile (env : Env) (store : List DbRow) (userId : String)
    (body : ProfileBody) : Response × List DbRow :=
  match UserService.updateProfile env store userId
      [("firstName", jsOptVal body.firstName),
       ("lastName", jsOptVal body.lastName),
       ("phone", jsOptVal body.phone),
       ("businessName", jsOptVal body.businessName)] with
  | .ok (store2, user) =>
    ({ status := 200, message := some "Profile updated successfully"
       userView := some user.toJSON }, store2)
  | .error _ =>
    ({ status := 500, message := some "Failed to update profile" }, store)

/-- `authMiddleware` (authMiddleware.js, lines 9-50): verify the bearer
token's signature and expiry, resolve the claimed id through
`UserRepository.findById`, reject a missing or unverified user; on success
the sanitized identity (`user.toJSON()`) is attached to the request. Every
rejection is a 401. -/
def authMiddleware (env : Env) (store : List DbRow) (tok : Jwt) :
    Except Nat (List (String × JVal)) :=
  match jwtVerify tok env.jwtSecret env.now with
  | .error _ => .error 401
  | .ok payload =>
    match UserRepository.findById env store payload.id with
    | none => .error 401
    | some user =>
      if ¬ user.isVerified then .error 401
      else .ok user.toJSON

/-! Concrete fixtures for the concrete-input theorems and witnesses. -/

/-- A concrete environment: fresh uuid, fresh random token, bcrypt salt,
clock at 1000 ms, default secret and one-day TTL. -/
def cEnv : Env :=
  { freshId := "uuid-1", freshToken := "tok-1", salt := 7, now := 1000,
    jwtSecret := "your-secret-key", jwtTtl := 86400000 }

/-- A later environment with different random draws. -/
def cEnv2 : Env := { cEnv with freshId := "uuid-2", freshToken := "tok-2", now := 2000 }

/-- A concrete valid registration request. -/
def cAlice : RegisterData :=
  { email := "alice@example.com", password := "Password123",
    firstName := some "Alice", lastName := some "Smith" }

/-- A correctly persisted `users` row for an unverified account whose stored
hash is the bcrypt hash of Password123. -/
def cRow : DbRow :=
  { id := "uuid-alice"
    email := "alice@example.com"
    password_hash := bcryptHash 7 "Password123"
    first_name := "Alice"
    last_name := "Smith"
    phone := none
    user_type := "buyer"
    business_name := none
    created_at := 500
    updated_at := 500
    is_verified := false
    verification_token := some "tok-0"
    reset_password_token := none
    reset_password_expires := none }

/-- Success test for an `Except` result. -/
def isOkE {ε α : Type} : Except ε α → Bool
  | .ok _ => true
  | .error _ => false

/-- Step 1 of the round-trip scenario: register alice against an empty
store. -/
def c1Reg : Except AuthError (List DbRow × User × String) :=
  UserService.registerUser cEnv [] cAlice

/-- Step 2: verify with exactly the token produced by the registration. -/
def c1Ver : Except AuthError (List DbRow × User) :=
  match c1Reg with
  | .error e => .error e
  | .ok (s, _, t) => UserService.verifyEmail cEnv2 s t

/-- Step 3: login with the registered email and password. -/
def c1Login : Except AuthError (List (String × JVal) × Jwt) :=
  match c1Ver with
  | .error e => .error e
  | .ok (s, _) => UserService.loginUser cEnv2 s cAlice.email cAlice.password

/-- C1: the Register → VerifyEmail → Login round-trip does NOT succeed on
the code as written. Registration and verification both succeed, but the
subsequent login with the correct email and password fails with the
invalid-credentials error: `loginUser` loads the account through
`findByEmail`, which hands the raw snake_case row to the `User` constructor,
so the loaded `passwordHash` is the constructor default `""` and the bcrypt
comparison can never succeed. -/
theorem register_verify_login_roundtrip_broken :
    isOkE c1Reg = true ∧ isOkE c1Ver = true ∧
    c1Login = .error .invalidCredentials :=
  ⟨rfl, rfl, rfl⟩

/-- C2: both raw-row lookups return a `User` whose `passwordHash` is the
empty string and whose `isVerified` is `false`, for every store and every
stored column values: `findById` and `findByEmail` skip `mapDbUserToModel`,
so the constructor sees no `passwordHash` or `isVerified` key and its
defaults take effect. -/
theorem raw_row_lookups_default_hash_and_verified
    (env : Env) (store : List DbRow) (id email : String) (u v : User)
    (h1 : UserRepository.findById env store id = some u)
    (h2 : UserRepository.findByEmail env store email = some v) :
    (u.passwordHash = "" ∧ u.isVerified = false) ∧
    (v.passwordHash = "" ∧ v.isVerified = false) := by
  have key : ∀ (r : DbRow) (fid : String) (n : Nat),
      (User.ofData (rawRowToUserData r) fid n).passwordHash = "" ∧
      (User.ofData (rawRowToUserData r) fid n).isVerified = false :=
    fun _ _ _ => ⟨rfl, rfl⟩
  constructor
  · unfold UserRepository.findById at h1
    rcases hf : store.filter (fun r => r.id = id) with _ | ⟨r, rest⟩ <;>
      rw [hf] at h1
    · exact Option.noConfusion h1
    · cases Option.some.inj h1
      exact key r _ _
  · unfold UserRepository.findByEmail at h2
    rcases hf : store.filter (fun r => r.email = email) with _ | ⟨r, rest⟩ <;>
      rw [hf] at h2
    · exact Option.noConfusion h2
    · cases Option.some.inj h2
      exact key r _ _

/-- Witness for C2 at a concrete store: looking the alice row up by id and
by email yields empty `passwordHash` and `isVerified = false` even though
the row stores a real hash. -/
theorem raw_row_lookups_default_witness :
    ((User.ofData (rawRowToUserData cRow) cEnv.freshId cEnv.now).passwordHash = "" ∧
      (User.ofData (rawRowToUserData cRow) cEnv.freshId cEnv.now).isVerified = false) ∧
    cRow.password_hash ≠ "" :=
  ⟨(raw_row_lookups_default_hash_and_verified cEnv [cRow] "uuid-alice"
      "alice@example.com" _ _ rfl rfl).1, by decide⟩

/-- C3: on a store holding a correctly persisted, UNVERIFIED account whose
stored hash matches the supplied password, `loginUser` reports
invalid-credentials instead of the distinct email-not-verified error: the
raw-row `findByEmail` gives the loaded user an empty `passwordHash`, so the
password check fails before the `isVerified` gate is ever reached. -/
theorem login_unverified_misreports_invalid_credentials :
    bcryptCompare "Password123" cRow.password_hash = true ∧
    cRow.is_verified = false ∧
    UserService.loginUser cEnv [cRow] "alice@example.com" "Password123" =
      .error .invalidCredentials :=
  ⟨rfl, rfl, rfl⟩

/-- Check that a response's user view, when present, contains none of the
secret keys. -/
def omitsSecrets : Option (List (String × JVal)) → Bool
  | none => true
  | some view => secretFields.all (fun k => (view.find? (fun kv => kv.1 = k)).isNone)

/-- The serialized `toJSON` view of any user lacks all three secret keys. -/
theorem toJSON_omits (u : User) : omitsSecrets (some u.toJSON) = true := rfl

/-- A successful `loginUser` always carries a `toJSON` view. -/
theorem loginUser_ok_view (env : Env) (store : List DbRow) (email pw : String)
    (view : List (String × JVal)) (tok : Jwt)
    (h : UserService.loginUser env store email pw = .ok (view, tok)) :
    ∃ u : User, view = u.toJSON := by
  unfold UserService.loginUser at h
  split at h
  · exact Except.noConfusion h
  · rename_i u _
    split at h
    · exact Except.noConfusion h
    · split at h
      · exact Except.noConfusion h
      · injection h with h2
        exact ⟨u, (congrArg Prod.fst h2).symm⟩

/-- C4: every user view returned to an external caller by registration,
login, email verification, the current-user fetch, or profile update omits
the `passwordHash`, `verificationToken` and `resetPasswordToken` fields, for
all stores and inputs. -/
theorem external_views_omit_secret_fields
    (env : Env) (store : List DbRow) (d : RegisterData)
    (email pw token userId : String) (body : ProfileBody) :
    omitsSecrets (AuthController.register env store d).1.userView = true ∧
    omitsSecrets (AuthController.login env store email pw).1.userView = true ∧
    omitsSecrets (AuthController.verifyEmail env store token).1.userView = true ∧
    omitsSecrets (UserController.getCurrentUser env store userId).1.userView = true ∧
    omitsSecrets (UserController.updateProfile env store userId body).1.userView = true := by
  refine ⟨?_, ?_, ?_, ?_, ?_⟩
  · unfold AuthController.register
    split
    · rfl
    · split
      · exact toJSON_omits _
      · rfl
      · rfl
      · rfl
  · unfold AuthController.login
    split
    · rfl
    · split
      · rename_i view tok2 h
        obtain ⟨u, hu⟩ := loginUser_ok_view env store email pw view tok2 h
        simp only [hu]
        exact toJSON_omits u
      · rfl
      · rfl
      · rfl
  · unfold AuthController.verifyEmail
    split
    · rfl
    · split
      · exact toJSON_omits _
      · rfl
      · rfl
  · unfold UserController.getCurrentUser
    split
    · rfl
    · exact toJSON_omits _
  · unfold UserController.updateProfile
    split
    · exact toJSON_omits _
    · rfl

set_option maxHeartbeats 1000000 in
/-- A SET assignment to a whitelisted column other than `password_hash` and
`is_verified` leaves those two columns of the row unchanged. -/
theorem setCol_preserves_hash_verified (r : DbRow) (col : String) (v : JsVal)
    (r2 : DbRow) (hmem : col ∈ validFields)
    (hc1 : col ≠ "password_hash") (hc2 : col ≠ "is_verified")
    (h : setCol r col v = .ok r2) :
    r2.password_hash = r.password_hash ∧ r2.is_verified = r.is_verified := by
  simp only [validFields, List.mem_cons, List.not_mem_nil, or_false] at hmem
  rcases hmem with rfl | rfl | rfl | rfl | rfl | rfl | rfl | rfl | rfl | rfl | rfl
  all_goals first
    | exact absurd rfl hc1
    | exact absurd rfl hc2
    | (cases v <;>
        first
          | exact Except.noConfusion h
          | (injection h with h0
             subst h0
             exact ⟨rfl, rfl⟩))

/-- Folding SET assignments over whitelisted columns other than
`password_hash` and `is_verified` preserves those two columns. -/
theorem foldSet_preserves_hash_verified (entries : List (String × JsVal))
    (r r2 : DbRow)
    (hmem : ∀ kv ∈ entries, kv.1 ∈ validFields)
    (hfil : ∀ kv ∈ entries, kv.1 ≠ "password_hash" ∧ kv.1 ≠ "is_verified")
    (h : applyAssignments entries r = .ok r2) :
    r2.password_hash = r.password_hash ∧ r2.is_verified = r.is_verified := by
  induction entries generalizing r with
  | nil =>
    injection h with h0
    subst h0
    exact ⟨rfl, rfl⟩
  | cons kv rest ih =>
    unfold applyAssignments at h
    cases hs : setCol r kv.1 kv.2 with
    | error e =>
      rw [hs] at h
      exact Except.noConfusion h
    | ok r1 =>
      rw [hs] at h
      obtain ⟨hp1, hv1⟩ := setCol_preserves_hash_verified r kv.1 kv.2 r1
        (hmem kv (by simp)) (hfil kv (by simp)).1 (hfil kv (by simp)).2 hs
      obtain ⟨hp2, hv2⟩ := ih r1 (fun kv2 hm => hmem kv2 (by simp [hm]))
        (fun kv2 hm => hfil kv2 (by simp [hm])) h
      exact ⟨hp2.trans hp1, hv2.trans hv1⟩

/-- An UPDATE whose per-row rewrite preserves a projection `f` of each row
preserves the projection of the whole table. -/
theorem updateRows_map_preserves {γ : Type} (apply : DbRow → Except RepoError DbRow)
    (id : String) (f : DbRow → γ) (store all upd : List DbRow)
    (happ : ∀ r r2, apply r = .ok r2 → f r2 = f r)
    (h : updateRows apply id store = .ok (all, upd)) :
    all.map f = store.map f := by
  induction store generalizing all upd with
  | nil =>
    unfold updateRows at h
    injection h with h0
    injection h0 with ha hb
    subst ha
    rfl
  | cons r rest ih =>
    unfold updateRows at h
    by_cases hid : r.id = id
    · rw [if_pos hid] at h
      cases hs : apply r with
      | error e => rw [hs] at h; exact Except.noConfusion h
      | ok r2 =>
        rw [hs] at h
        cases hrec : updateRows apply id rest with
        | error e => rw [hrec] at h; exact Except.noConfusion h
        | ok p =>
          obtain ⟨all2, upd2⟩ := p
          rw [hrec] at h
          injection h with h0
          injection h0 with ha hb
          subst ha
          simp only [List.map_cons]
          rw [happ r r2 hs, ih all2 upd2 hrec]
    · rw [if_neg hid] at h
      cases hrec : updateRows apply id rest with
      | error e => rw [hrec] at h; exact Except.noConfusion h
      | ok p =>
        obtain ⟨all2, upd2⟩ := p
        rw [hrec] at h
        injection h with h0
        injection h0 with ha hb
        subst ha
        simp only [List.map_cons]
        rw [ih all2 upd2 hrec]

/-- When the per-row rewrite is `g` and succeeds on every matching row, the
UPDATE succeeds, rewrites exactly the matching rows in place, and RETURNS the
rewritten matching rows in table order. -/
theorem updateRows_ok_of_total (apply : DbRow → Except RepoError DbRow)
    (g : DbRow → DbRow) (id : String) (store : List DbRow)
    (happ : ∀ r, r ∈ store → r.id = id → apply r = .ok (g r)) :
    updateRows apply id store =
      .ok (store.map (fun r => if r.id = id then g r else r),
           (store.filter (fun r => r.id = id)).map g) := by
  induction store with
  | nil => rfl
  | cons r rest ih =>
    unfold updateRows
    have ihr := ih (fun r2 hm h2 => happ r2 (List.mem_cons_of_mem r hm) h2)
    by_cases hid : r.id = id
    · rw [if_pos hid, happ r (List.mem_cons_self r rest) hid, ihr]
      simp [hid]
    · rw [if_neg hid, ihr]
      simp [hid]

/-- The store visible after a `updateProfile` service call: its result on
success, the untouched input store when the call threw (the service throws
either before its single UPDATE statement or because that statement itself
failed and wrote nothing). -/
def profileStoreAfter (store : List DbRow) :
    Except AuthError (List DbRow × User) → List DbRow
  | .ok (s2, _) => s2
  | .error _ => store

/-- Counterexample to C5: a `verificationToken` entry in the `updates`
object of the service-level `UpdateProfile` is NOT dropped — it flows
through the destructuring (which strips only `password`, `passwordHash`,
`isVerified`) and through the repository whitelist (which contains
`verification_token`), overwriting the stored verification token. -/
theorem updateProfile_applies_verification_token :
    cRow.verification_token = some "tok-0" ∧
    (profileStoreAfter [cRow]
        (UserService.updateProfile cEnv [cRow] "uuid-alice"
          [("verificationToken", JsVal.vstr "evil")])).map
      (fun r => r.verification_token) = [some "evil"] :=
  ⟨rfl, rfl⟩

/-- C5 as amended: a service-level `updateProfile` can never change the
stored `password_hash` or `is_verified` of any row — `passwordHash` and
`isVerified` entries are silently dropped, and a truthy `password` entry
throws before the UPDATE — provided no update key is a literal snake_case
alias of those two columns (the camelCase-keyed objects the code builds);
token fields, by contrast, are NOT protected (see the counterexample). -/
theorem updateProfile_guards_hash_and_verified (env : Env) (store : List DbRow)
    (userId : String) (updates : List (String × JsVal))
    (hk : ∀ kv ∈ updates,
      kv.1 = "password" ∨ kv.1 = "passwordHash" ∨ kv.1 = "isVerified" ∨
      (camelToSnake kv.1 ≠ "password_hash" ∧ camelToSnake kv.1 ≠ "is_verified")) :
    (profileStoreAfter store (UserService.updateProfile env store userId updates)).map
        (fun r => (r.password_hash, r.is_verified)) =
      store.map (fun r => (r.password_hash, r.is_verified)) := by
  have happly : ∀ r r2 : DbRow,
      applySetClause env.now (updates.filter (fun kv =>
        kv.1 ≠ "password" ∧ kv.1 ≠ "passwordHash" ∧ kv.1 ≠ "isVerified")) r = .ok r2 →
      (fun r0 : DbRow => (r0.password_hash, r0.is_verified)) r2 =
        (fun r0 : DbRow => (r0.password_hash, r0.is_verified)) r := by
    intro r r2 hap
    unfold applySetClause at hap
    cases hfold : applyAssignments
        ((updates.filter (fun kv =>
          kv.1 ≠ "password" ∧ kv.1 ≠ "passwordHash" ∧ kv.1 ≠ "isVerified")).map
            (fun kv => (camelToSnake kv.1, kv.2)) |>.filter
            (fun kv => validFields.contains kv.1)) r with
    | error e => rw [hfold] at hap; exact Except.noConfusion hap
    | ok r3 =>
      rw [hfold] at hap
      injection hap with h1
      have hside : ∀ kv, kv ∈ ((updates.filter (fun kv =>
          kv.1 ≠ "password" ∧ kv.1 ≠ "passwordHash" ∧ kv.1 ≠ "isVerified")).map
            (fun kv => (camelToSnake kv.1, kv.2)) |>.filter
            (fun kv => validFields.contains kv.1)) →
          kv.1 ∈ validFields ∧ (kv.1 ≠ "password_hash" ∧ kv.1 ≠ "is_verified") := by
        intro kv hm
        refine ⟨List.elem_iff.mp (List.mem_filter.mp hm).2, ?_⟩
        obtain ⟨kv0, hkv0mem, hkv0eq⟩ :=
          List.mem_map.mp (List.mem_filter.mp hm).1
        obtain ⟨hmem0, hnot3⟩ := List.mem_filter.mp hkv0mem
        rw [decide_eq_true_eq] at hnot3
        subst hkv0eq
        rcases hk kv0 hmem0 with h | h | h | h
        · exact absurd h hnot3.1
        · exact absurd h hnot3.2.1
        · exact absurd h hnot3.2.2
        · exact h
      obtain ⟨hp, hv⟩ := foldSet_preserves_hash_verified _ r r3
        (fun kv hm => (hside kv hm).1) (fun kv hm => (hside kv hm).2) hfold
      subst h1
      show (r3.password_hash, r3.is_verified) = _
      rw [hp, hv]
  unfold UserService.updateProfile
  split
  · split
    · split <;> rfl
    · rfl
  · cases hrep : UserRepository.update env store userId
        (updates.filter (fun kv =>
          kv.1 ≠ "password" ∧ kv.1 ≠ "passwordHash" ∧ kv.1 ≠ "isVerified")) with
    | error e => rfl
    | ok res =>
      obtain ⟨all, uret⟩ := res
      show all.map _ = _
      unfold UserRepository.update at hrep
      cases hur : updateRows
          (applySetClause env.now (updates.filter (fun kv =>
            kv.1 ≠ "password" ∧ kv.1 ≠ "passwordHash" ∧ kv.1 ≠ "isVerified")))
          userId store with
      | error e => rw [hur] at hrep; exact Except.noConfusion hrep
      | ok p =>
        obtain ⟨all2, upd2⟩ := p
        rw [hur] at hrep
        cases upd2 with
        | nil => exact Except.noConfusion hrep
        | cons w ws =>
          injection hrep with h0
          injection h0 with ha hb
          subst ha
          exact updateRows_map_preserves _ userId _ store all2 (w :: ws) happly hur

/-- Witness for C5 as amended: a concrete update touching `firstName` and
smuggling `verificationToken` still leaves `password_hash` and `is_verified`
untouched. -/
theorem updateProfile_guards_witness :
    (profileStoreAfter [cRow]
        (UserService.updateProfile cEnv [cRow] "uuid-alice"
          [("firstName", JsVal.vstr "Bob"), ("verificationToken", JsVal.vstr "evil")])).map
        (fun r => (r.password_hash, r.is_verified)) =
      [cRow].map (fun r => (r.password_hash, r.is_verified)) :=
  updateProfile_guards_hash_and_verified cEnv [cRow] "uuid-alice"
    [("firstName", JsVal.vstr "Bob"), ("verificationToken", JsVal.vstr "evil")]
    (by
      intro kv hm
      simp only [List.mem_cons, List.not_mem_nil, or_false] at hm
      rcases hm with rfl | rfl
      · exact Or.inr (Or.inr (Or.inr ⟨by decide, by decide⟩))
      · exact Or.inr (Or.inr (Or.inr ⟨by decide, by decide⟩)))

/-- A successful `findByEmail` returns the first matching row, wrapped raw. -/
theorem findByEmail_mem (env : Env) (store : List DbRow) (email : String) (u : User)
    (h : UserRepository.findByEmail env store email = some u) :
    ∃ r, r ∈ store ∧ r.email = email ∧
      u = User.ofData (rawRowToUserData r) env.freshId env.now := by
  unfold UserRepository.findByEmail at h
  rcases hf : store.filter (fun r => r.email = email) with _ | ⟨r, rest⟩ <;>
    rw [hf] at h
  · exact Option.noConfusion h
  · have hmem : r ∈ store.filter (fun r => r.email = email) := by
      rw [hf]; exact List.mem_cons_self r rest
    have h2 := List.mem_filter.mp hmem
    refine ⟨r, h2.1, ?_, (Option.some.inj h).symm⟩
    simpa using h2.2

/-- The row rewrite performed by the UPDATE of a password-reset request. -/
def resetWriteRow (env : Env) (r0 : DbRow) : DbRow :=
  { r0 with
    reset_password_token := some env.freshToken
    reset_password_expires := some (env.now + 3600000)
    updated_at := env.now }

/-- The SET clause written by a password-reset request succeeds on every row,
storing the fresh token, the one-hour expiry and the timestamp. -/
theorem applySetClause_reset_write (env : Env) (r : DbRow) :
    applySetClause env.now
        [("resetPasswordToken", .vstr env.freshToken),
         ("resetPasswordExpires", .vdate (env.now + 3600000))] r =
      .ok (resetWriteRow env r) := rfl

/-- When `findByEmail` finds a user, `requestPasswordReset` reduces to its
UPDATE branch. -/
theorem requestPasswordReset_some (env : Env) (store : List DbRow)
    (email : String) (user : User)
    (hf : UserRepository.findByEmail env store email = some user) :
    UserService.requestPasswordReset env store email =
      match UserRepository.update env store user.id
          [("resetPasswordToken", .vstr env.freshToken),
           ("resetPasswordExpires", .vdate (env.now + 3600000))] with
      | .error e => .error (.repoFailure e)
      | .ok (store2, _) => .ok store2 := by
  unfold UserService.requestPasswordReset
  rw [hf]

/-- A password-reset request never throws: an unknown email is a silent
no-op, and for a known email the single UPDATE targets the id of a stored
row, so a row is always returned. -/
theorem requestPasswordReset_ok (env : Env) (store : List DbRow) (email : String)
    (hw : ∀ r ∈ store, r.id ≠ "") :
    ∃ s2, UserService.requestPasswordReset env store email = .ok s2 := by
  cases hf : UserRepository.findByEmail env store email with
  | none => exact ⟨store, by unfold UserService.requestPasswordReset; rw [hf]⟩
  | some user =>
    obtain ⟨r, hmem, hem, hu⟩ := findByEmail_mem env store email user hf
    have hid : user.id = r.id := by
      subst hu
      show (if r.id = "" then env.freshId else r.id) = r.id
      rw [if_neg (hw r hmem)]
    rw [requestPasswordReset_some env store email user hf]
    unfold UserRepository.update
    rw [hid, updateRows_ok_of_total _ (resetWriteRow env) r.id store
      (fun r0 _ _ => applySetClause_reset_write env r0)]
    rcases hfil : store.filter (fun r0 => r0.id = r.id) with _ | ⟨a, rest⟩
    · exfalso
      have hrm : r ∈ store.filter (fun r0 => r0.id = r.id) :=
        List.mem_filter.mpr ⟨hmem, by simp⟩
      rw [hfil] at hrm
      exact absurd hrm (List.not_mem_nil r)
    · rw [hfil]
      exact ⟨_, rfl⟩

/-- C6: for every nonempty input email, the forgot-password endpoint answers
200 with the one fixed generic message, whether or not a user with that
email exists (the store is universally quantified, so the response status
and wording carry no information about account existence). -/
theorem forgot_password_uniform_response (env : Env) (store : List DbRow)
    (email : String) (hemail : email ≠ "") (hw : ∀ r ∈ store, r.id ≠ "") :
    (AuthController.requestPasswordReset env store email).1.status = 200 ∧
    (AuthController.requestPasswordReset env store email).1.message =
      some "If your email exists in our system, you will receive a password reset link" := by
  obtain ⟨s2, hs2⟩ := requestPasswordReset_ok env store email hw
  unfold AuthController.requestPasswordReset
  rw [if_neg hemail, hs2]
  exact ⟨rfl, rfl⟩

/-- Witness for C6: against the same one-user store, an absent email and the
present email both get status 200 and the identical generic message. -/
theorem forgot_password_uniform_witness :
    ((AuthController.requestPasswordReset cEnv [cRow] "nobody@example.com").1.status = 200 ∧
      (AuthController.requestPasswordReset cEnv [cRow] "nobody@example.com").1.message =
        some "If your email exists in our system, you will receive a password reset link") ∧
    ((AuthController.requestPasswordReset cEnv [cRow] "alice@example.com").1.status = 200 ∧
      (AuthController.requestPasswordReset cEnv [cRow] "alice@example.com").1.message =
        some "If your email exists in our system, you will receive a password reset link") :=
  ⟨forgot_password_uniform_response cEnv [cRow] "nobody@example.com"
      (by decide) (by decide),
   forgot_password_uniform_response cEnv [cRow] "alice@example.com"
      (by decide) (by decide)⟩

/-- A successful repository `verifyEmail` leaves the token-cleared store and
returns the mapping of the first consumed row. -/
theorem repoVerifyEmail_some (env : Env) (store st2 : List DbRow)
    (token : String) (u : User)
    (h : UserRepository.verifyEmail env store token = some (st2, u)) :
    st2 = store.map (fun r0 =>
        if r0.verification_token = some token then consumeVerifyRow env r0 else r0) ∧
    ∃ r, r ∈ store ∧
      u = User.ofData (mapDbUserToModel (consumeVerifyRow env r)) env.freshId env.now := by
  unfold UserRepository.verifyEmail at h
  rcases hf : store.filter (fun r => r.verification_token = some token)
      with _ | ⟨r, rest⟩ <;> rw [hf] at h
  · exact Option.noConfusion h
  · injection h with h0
    injection h0 with ha hb
    refine ⟨ha.symm, r, ?_, hb.symm⟩
    have hmem : r ∈ store.filter (fun r => r.verification_token = some token) := by
      rw [hf]; exact List.mem_cons_self r rest
    exact (List.mem_filter.mp hmem).1

/-- A successful service `verifyEmail` comes from a successful repository
`verifyEmail`. -/
theorem serviceVerifyEmail_ok (env : Env) (store st2 : List DbRow)
    (token : String) (u : User)
    (h : UserService.verifyEmail env store token = .ok (st2, u)) :
    UserRepository.verifyEmail env store token = some (st2, u) := by
  unfold UserService.verifyEmail at h
  cases hr : UserRepository.verifyEmail env store token with
  | none => rw [hr] at h; exact Except.noConfusion h
  | some res =>
    rw [hr] at h
    injection h with h0
    exact congrArg some h0

/-- After a successful verification, no row of the store holds the consumed
verification token any more. -/
theorem verify_clears_token (env : Env) (store st2 : List DbRow)
    (token : String) (u : User)
    (h : UserService.verifyEmail env store token = .ok (st2, u)) :
    ∀ r2 ∈ st2, r2.verification_token ≠ some token := by
  obtain ⟨hstore, -⟩ := repoVerifyEmail_some env store st2 token u
    (serviceVerifyEmail_ok env store st2 token u h)
  subst hstore
  intro r2 hmem
  obtain ⟨r0, hr0, hr0eq⟩ := List.mem_map.mp hmem
  subst hr0eq
  by_cases hc : r0.verification_token = some token
  · rw [if_pos hc]
    intro hbad
    exact Option.noConfusion hbad
  · rw [if_neg hc]
    exact hc

/-- The row rewrite of the reset-password UPDATE: store the new hash, clear
both reset columns, stamp the time. -/
def resetConsumeRow (env : Env) (pw : String) (r0 : DbRow) : DbRow :=
  { r0 with
    password_hash := bcryptHash env.salt pw
    reset_password_token := none
    reset_password_expires := none
    updated_at := env.now }

/-- The SET clause written by a successful password reset succeeds on every
row. -/
theorem applySetClause_reset_consume (env : Env) (pw : String) (r : DbRow) :
    applySetClause env.now
        [("passwordHash", .vstr (bcryptHash env.salt pw)),
         ("resetPasswordToken", .vnull),
         ("resetPasswordExpires", .vnull)] r =
      .ok (resetConsumeRow env pw r) := rfl

/-- When the reset-token SELECT finds a first row, `resetPassword` reduces
to its validation-then-UPDATE branch for that row. -/
theorem resetPassword_sel (env : Env) (store : List DbRow) (token pw : String)
    (r : DbRow) (rest : List DbRow)
    (hsel : store.filter (fun r =>
      r.reset_password_token == some token &&
      match r.reset_password_expires with
      | some e => decide (env.now < e)
      | none => false) = r :: rest) :
    UserService.resetPassword env store token pw =
      if ¬ validPassword pw then .error .weakPassword
      else
        match UserRepository.update env store
            (User.ofData (mapDbUserToModel r) env.freshId env.now).id
            [("passwordHash", .vstr (bcryptHash env.salt pw)),
             ("resetPasswordToken", .vnull),
             ("resetPasswordExpires", .vnull)] with
        | .error e => .error (.repoFailure e)
        | .ok (store2, _) => .ok store2 := by
  unfold UserService.resetPassword
  rw [hsel]

/-- A successful `resetPassword` acted on some stored row holding the token,
and produced the store in which exactly the rows with that row's id have
been rewritten to the consumed form. -/
theorem resetPassword_ok_shape (env : Env) (store st2 : List DbRow)
    (token pw : String) (hw : ∀ r ∈ store, r.id ≠ "")
    (h : UserService.resetPassword env store token pw = .ok st2) :
    ∃ r, r ∈ store ∧ r.reset_password_token = some token ∧
      st2 = store.map (fun r0 =>
        if r0.id = r.id then resetConsumeRow env pw r0 else r0) := by
  rcases hsel : store.filter (fun r =>
      r.reset_password_token == some token &&
      match r.reset_password_expires with
      | some e => decide (env.now < e)
      | none => false) with _ | ⟨r, rest⟩
  · rw [UserService.resetPassword, hsel] at h
    exact Except.noConfusion h
  · rw [resetPassword_sel env store token pw r rest hsel] at h
    have hmem : r ∈ store.filter (fun r =>
        r.reset_password_token == some token &&
        match r.reset_password_expires with
        | some e => decide (env.now < e)
        | none => false) := by
      rw [hsel]; exact List.mem_cons_self r rest
    obtain ⟨hrstore, hpred⟩ := List.mem_filter.mp hmem
    have htok : r.reset_password_token = some token :=
      eq_of_beq (Bool.and_elim_left hpred)
    have hid : (User.ofData (mapDbUserToModel r) env.freshId env.now).id = r.id := by
      show (if r.id = "" then env.freshId else r.id) = r.id
      rw [if_neg (hw r hrstore)]
    rw [hid] at h
    split at h
    · exact Except.noConfusion h
    · unfold UserRepository.update at h
      rw [updateRows_ok_of_total _ (resetConsumeRow env pw) r.id store
        (fun r0 _ _ => applySetClause_reset_consume env pw r0)] at h
      rcases hfil : store.filter (fun r0 => r0.id = r.id) with _ | ⟨a, arest⟩ <;>
        rw [hfil] at h
      · exfalso
        have hrm : r ∈ store.filter (fun r0 => r0.id = r.id) :=
          List.mem_filter.mpr ⟨hrstore, by simp⟩
        rw [hfil] at hrm
        exact absurd hrm (List.not_mem_nil r)
      · have h2 : (Except.ok (store.map (fun r0 =>
            if r0.id = r.id then resetConsumeRow env pw r0 else r0)) :
              Except AuthError (List DbRow)) = .ok st2 := h
        injection h2 with h3
        exact ⟨r, hrstore, htok, h3.symm⟩

/-- C7: consumed lifecycle tokens are single-use. A successful `VerifyEmail`
returns a verified user with the token cleared, clears the token from every
row atomically with setting `is_verified` (one UPDATE), and a second
presentation of the same token fails with the invalid-or-expired-token
error. A successful `ResetPassword` (on a store with well-formed ids, where
the token does not designate two distinct accounts) clears the reset token
atomically with storing the new hash, and a second presentation of the same
token string fails with the invalid-or-expired-token error. -/
theorem tokens_single_use
    (env1 env2 env3 env4 : Env) (vstore vstore2 rstore rstore2 : List DbRow)
    (vtok rtok pw pw2 : String) (u : User)
    (hv : UserService.verifyEmail env1 vstore vtok = .ok (vstore2, u))
    (hw : ∀ r ∈ rstore, r.id ≠ "")
    (huniq : ∀ r1 ∈ rstore, ∀ r2 ∈ rstore,
      r1.reset_password_token = some rtok → r2.reset_password_token = some rtok →
      r1.id = r2.id)
    (hr : UserService.resetPassword env3 rstore rtok pw = .ok rstore2) :
    (u.isVerified = true ∧ u.verificationToken = none ∧
      (∀ r2 ∈ vstore2, r2.verification_token ≠ some vtok) ∧
      UserService.verifyEmail env2 vstore2 vtok = .error .invalidOrExpiredToken) ∧
    ((∀ r2 ∈ rstore2, r2.reset_password_token ≠ some rtok) ∧
      UserService.resetPassword env4 rstore2 rtok pw2 =
        .error .invalidOrExpiredToken) := by
  have hcleared := verify_clears_token env1 vstore vstore2 vtok u hv
  obtain ⟨-, r, -, huval⟩ := repoVerifyEmail_some env1 vstore vstore2 vtok u
    (serviceVerifyEmail_ok env1 vstore vstore2 vtok u hv)
  obtain ⟨rr, hrmem, hrtok, hst2⟩ :=
    resetPassword_ok_shape env3 rstore rstore2 rtok pw hw hr
  have hrcleared : ∀ r2 ∈ rstore2, r2.reset_password_token ≠ some rtok := by
    subst hst2
    intro r2 hmem
    obtain ⟨r0, hr0, hr0eq⟩ := List.mem_map.mp hmem
    subst hr0eq
    by_cases hc : r0.id = rr.id
    · rw [if_pos hc]
      intro hbad
      exact Option.noConfusion hbad
    · rw [if_neg hc]
      intro hbad
      exact hc (huniq r0 hr0 rr hrmem hbad hrtok)
  refine ⟨⟨?_, ?_, hcleared, ?_⟩, hrcleared, ?_⟩
  · subst huval; rfl
  · subst huval; rfl
  · have hnil : vstore2.filter (fun r => r.verification_token = some vtok) = [] :=
      List.filter_eq_nil_iff.mpr (fun a ha => by
        simpa using hcleared a ha)
    unfold UserService.verifyEmail UserRepository.verifyEmail
    rw [hnil]
  · have hnil : rstore2.filter (fun r =>
        r.reset_password_token == some rtok &&
        match r.reset_password_expires with
        | some e => decide (env4.now < e)
        | none => false) = [] := by
      refine List.filter_eq_nil_iff.mpr (fun a ha => ?_)
      have := hrcleared a ha
      simp only [Bool.and_eq_true, beq_iff_eq]
      intro hand
      exact this hand.1
    unfold UserService.resetPassword
    rw [hnil]

/-- A store whose single row holds a live reset token, used by the C7 and C8
witnesses. -/
def cRowReset : DbRow :=
  { cRow with id := "uuid-bob", email := "bob@example.com",
              verification_token := none,
              reset_password_token := some "rtok-1",
              reset_password_expires := some 5000 }

/-- Witness for C7 at concrete inputs: verifying alice's token succeeds once
and fails the second time; resetting bob's password with his live token
succeeds once and the same token is then rejected. -/
theorem tokens_single_use_witness :
    ((User.ofData (mapDbUserToModel (consumeVerifyRow cEnv cRow))
         cEnv.freshId cEnv.now).isVerified = true ∧
      (User.ofData (mapDbUserToModel (consumeVerifyRow cEnv cRow))
         cEnv.freshId cEnv.now).verificationToken = none ∧
      (∀ r2 ∈ [consumeVerifyRow cEnv cRow], r2.verification_token ≠ some "tok-0") ∧
      UserService.verifyEmail cEnv2 [consumeVerifyRow cEnv cRow] "tok-0" =
        .error .invalidOrExpiredToken) ∧
    ((∀ r2 ∈ [resetConsumeRow cEnv "NewPassword1" cRowReset],
        r2.reset_password_token ≠ some "rtok-1") ∧
      UserService.resetPassword cEnv2 [resetConsumeRow cEnv "NewPassword1" cRowReset]
        "rtok-1" "Password456" = .error .invalidOrExpiredToken) :=
  tokens_single_use cEnv cEnv2 cEnv cEnv2 [cRow] [consumeVerifyRow cEnv cRow]
    [cRowReset] [resetConsumeRow cEnv "NewPassword1" cRowReset]
    "tok-0" "rtok-1" "NewPassword1" "Password456"
    (User.ofData (mapDbUserToModel (consumeVerifyRow cEnv cRow)) cEnv.freshId cEnv.now)
    rfl (by decide) (by decide) rfl

/-- The store visible after a reset-password call: the result on success,
the untouched input store otherwise (the only statement the code issues
before throwing is the SELECT). -/
def storeAfterReset (store : List DbRow) : Except AuthError (List DbRow) → List DbRow
  | .ok s2 => s2
  | .error _ => store

/-- C8: when every row holding the presented reset token has an expiry that
is not in the future (a null expiry counts as dead), `ResetPassword` fails
with the invalid-or-expired-token error exactly as if no token matched — the
SELECT requires `reset_password_expires > NOW()` strictly — and the store is
unchanged. -/
theorem reset_with_expired_token_fails (env : Env) (store : List DbRow)
    (token pw : String)
    (_hmatch : ∃ r ∈ store, r.reset_password_token = some token)
    (hdead : ∀ r ∈ store, r.reset_password_token = some token →
      r.reset_password_expires.getD 0 ≤ env.now) :
    UserService.resetPassword env store token pw = .error .invalidOrExpiredToken ∧
    storeAfterReset store (UserService.resetPassword env store token pw) = store := by
  have hnil : store.filter (fun r =>
      r.reset_password_token == some token &&
      match r.reset_password_expires with
      | some e => decide (env.now < e)
      | none => false) = [] := by
    refine List.filter_eq_nil_iff.mpr (fun a ha => ?_)
    simp only [Bool.and_eq_true, beq_iff_eq, not_and]
    intro htok
    rcases hcase : a.reset_password_expires with _ | e
    · intro hexp; exact Bool.noConfusion hexp
    · intro hexp
      have h1 : env.now < e := of_decide_eq_true hexp
      have hd := hdead a ha htok
      rw [hcase] at hd
      exact absurd h1 (not_lt.mpr hd)
  have hres : UserService.resetPassword env store token pw =
      .error .invalidOrExpiredToken := by
    unfold UserService.resetPassword
    rw [hnil]
  exact ⟨hres, by rw [hres]; rfl⟩

/-- A row holding the reset token with an expiry already in the past. -/
def cRowExpired : DbRow := { cRowReset with reset_password_expires := some 500 }

/-- Witness for C8: bob's reset token matches exactly but expired at 500 ms
while the clock reads 1000 ms; the reset is rejected and the store is
untouched. -/
theorem reset_expired_witness :
    UserService.resetPassword cEnv [cRowExpired] "rtok-1" "NewPassword1" =
      .error .invalidOrExpiredToken ∧
    storeAfterReset [cRowExpired]
        (UserService.resetPassword cEnv [cRowExpired] "rtok-1" "NewPassword1") =
      [cRowExpired] :=
  reset_with_expired_token_fails cEnv [cRowExpired] "rtok-1" "NewPassword1"
    (by decide) (by decide)

/-- A successful `create` required present names and appended exactly the
inserted row. -/
theorem create_ok_shape (env : Env) (store store2 : List DbRow) (u saved : User)
    (h : UserRepository.create env store u = .ok (store2, saved)) :
    ∃ fn ln, u.firstName = some fn ∧ u.lastName = some ln ∧
      store2 = store ++ [insertedRow u fn ln] := by
  unfold UserRepository.create at h
  cases hfn : u.firstName with
  | none => rw [hfn] at h; exact Except.noConfusion h
  | some fn =>
    rw [hfn] at h
    cases hln : u.lastName with
    | none => rw [hln] at h; exact Except.noConfusion h
    | some ln =>
      rw [hln] at h
      have h2 : (if store.any (fun r => r.email = u.email) then
            (.error .uniqueViolation : Except RepoError (List DbRow × User))
          else .ok (store ++ [insertedRow u fn ln],
            User.ofData (mapDbUserToModel (insertedRow u fn ln))
              env.freshId env.now)) = .ok (store2, saved) := h
      split at h2
      · exact Except.noConfusion h2
      · injection h2 with h0
        injection h0 with ha hb
        exact ⟨fn, ln, rfl, rfl, ha.symm⟩

/-- A successful registration appended a row carrying the registered email,
and the password passed the length policy. -/
theorem registerUser_ok_shape (env : Env) (store store1 : List DbRow)
    (d : RegisterData) (u : User) (tok : String)
    (h : UserService.registerUser env store d = .ok (store1, u, tok)) :
    (∃ r ∈ store1, r.email = d.email) ∧ validPassword d.password = true := by
  unfold UserService.registerUser at h
  cases hf : UserRepository.findByEmail env store d.email with
  | some u0 => rw [hf] at h; exact Except.noConfusion h
  | none =>
    rw [hf] at h
    by_cases hvp : validPassword d.password
    · rw [if_neg (fun hc => hc hvp)] at h
      cases hc : UserRepository.create env store
          (User.createFromRegistration env d env.freshToken) with
      | error e => rw [hc] at h; exact Except.noConfusion h
      | ok res =>
        obtain ⟨store2, saved⟩ := res
        rw [hc] at h
        injection h with h0
        injection h0 with ha hb
        subst ha
        obtain ⟨fn, ln, hfn, hln, hst⟩ := create_ok_shape env store store2
          (User.createFromRegistration env d env.freshToken) saved hc
        subst hst
        exact ⟨⟨insertedRow (User.createFromRegistration env d env.freshToken) fn ln,
          by simp, rfl⟩, hvp⟩
    · rw [if_pos hvp] at h
      exact Except.noConfusion h

/-- Email verification rewrites rows in place and never changes the `email`
column, so the list of stored emails is unchanged. -/
theorem verifyEmail_preserves_emails (env : Env) (store store2 : List DbRow)
    (token : String) (u : User)
    (h : UserService.verifyEmail env store token = .ok (store2, u)) :
    store2.map (fun r => r.email) = store.map (fun r => r.email) := by
  obtain ⟨hst, -⟩ := repoVerifyEmail_some env store store2 token u
    (serviceVerifyEmail_ok env store store2 token u h)
  subst hst
  rw [List.map_map]
  refine List.map_congr_left (fun r hr => ?_)
  by_cases hc : r.verification_token = some token
  · rw [Function.comp_apply, if_pos hc]; rfl
  · rw [Function.comp_apply, if_neg hc]

/-- A registration against a store already containing the email is answered
with 409 and leaves the store unchanged. -/
theorem register_conflict_of_email_present (env : Env) (store : List DbRow)
    (d : RegisterData) (hp : ∃ r ∈ store, r.email = d.email)
    (hem : d.email ≠ "") (hpw : d.password ≠ "")
    (hfn : jsStrOrNull d.firstName ≠ none) (hln : jsStrOrNull d.lastName ≠ none) :
    AuthController.register env store d =
      ({ status := 409, message := some "User with this email already exists" },
       store) := by
  have hfind : ∃ u0, UserRepository.findByEmail env store d.email = some u0 := by
    unfold UserRepository.findByEmail
    rcases hf : store.filter (fun r => r.email = d.email) with _ | ⟨r, rest⟩
    · obtain ⟨r, hmem, he⟩ := hp
      have hin : r ∈ store.filter (fun r => r.email = d.email) :=
        List.mem_filter.mpr ⟨hmem, by simp [he]⟩
      rw [hf] at hin
      exact absurd hin (List.not_mem_nil r)
    · rw [hf]
      exact ⟨_, rfl⟩
  obtain ⟨u0, hu0⟩ := hfind
  have hsvc : UserService.registerUser env store d = .error .conflict := by
    unfold UserService.registerUser
    rw [hu0]
  have hcond : ¬(d.email = "" ∨ d.password = "" ∨
      jsStrOrNull d.firstName = none ∨ jsStrOrNull d.lastName = none) := by
    push_neg
    exact ⟨hem, hpw, hfn, hln⟩
  unfold AuthController.register
  rw [if_neg hcond, hsvc]

/-- The store after an optional intervening `VerifyEmail` call with the
registration's token (unchanged when verification fails). -/
def afterOptionalVerify (env : Env) (doVerify : Bool) (store : List DbRow)
    (token : String) : List DbRow :=
  if doVerify then
    match UserService.verifyEmail env store token with
    | .ok (s2, _) => s2
    | .error _ => store
  else store

/-- C9: after a successful registration, registering again with the same
(nonempty) email — whether or not the first account was verified in between
— is answered with HTTP 409 Conflict and leaves the store unchanged, so no
second account is created. -/
theorem register_twice_conflict (env1 env2 env3 : Env) (store0 store1 : List DbRow)
    (d : RegisterData) (u : User) (tok : String) (doVerify : Bool)
    (hreg : UserService.registerUser env1 store0 d = .ok (store1, u, tok))
    (hem : d.email ≠ "")
    (hfn : jsStrOrNull d.firstName ≠ none) (hln : jsStrOrNull d.lastName ≠ none) :
    (AuthController.register env3 (afterOptionalVerify env2 doVerify store1 tok)
        d).1.status = 409 ∧
    (AuthController.register env3 (afterOptionalVerify env2 doVerify store1 tok)
        d).2 = afterOptionalVerify env2 doVerify store1 tok := by
  obtain ⟨⟨r, hmem, he⟩, hvp⟩ := registerUser_ok_shape env1 store0 store1 d u tok hreg
  have hpw : d.password ≠ "" := by
    intro hb
    rw [hb] at hvp
    exact absurd hvp (by decide)
  have hp2 : ∃ r2 ∈ afterOptionalVerify env2 doVerify store1 tok,
      r2.email = d.email := by
    unfold afterOptionalVerify
    cases doVerify with
    | false => exact ⟨r, hmem, he⟩
    | true =>
      cases hv : UserService.verifyEmail env2 store1 tok with
      | error e => exact ⟨r, hmem, he⟩
      | ok res =>
        obtain ⟨st2, u2⟩ := res
        have hmap := verifyEmail_preserves_emails env2 store1 st2 tok u2 hv
        have hin : d.email ∈ st2.map (fun r => r.email) := by
          rw [hmap]
          exact List.mem_map.mpr ⟨r, hmem, he⟩
        obtain ⟨r2, hr2, he2⟩ := List.mem_map.mp hin
        exact ⟨r2, hr2, he2⟩
  rw [register_conflict_of_email_present env3 _ d hp2 hem hpw hfn hln]
  exact ⟨rfl, rfl⟩

/-- The row persisted by registering alice against an empty store with the
concrete environment. -/
def cAliceRow : DbRow :=
  { id := "uuid-1"
    email := "alice@example.com"
    password_hash := bcryptHash 7 "Password123"
    first_name := "Alice"
    last_name := "Smith"
    phone := none
    user_type := "buyer"
    business_name := none
    created_at := 1000
    updated_at := 1000
    is_verified := false
    verification_token := some "tok-1"
    reset_password_token := none
    reset_password_expires := none }

/-- Witness for C9: register alice, verify her email with the registration
token, then register the same data again — 409 and an unchanged store. -/
theorem register_twice_conflict_witness :
    (AuthController.register cEnv2
        (afterOptionalVerify cEnv2 true [cAliceRow] "tok-1") cAlice).1.status = 409 ∧
    (AuthController.register cEnv2
        (afterOptionalVerify cEnv2 true [cAliceRow] "tok-1") cAlice).2 =
      afterOptionalVerify cEnv2 true [cAliceRow] "tok-1" :=
  register_twice_conflict cEnv cEnv2 cEnv2 [] [cAliceRow] cAlice
    (User.ofData (mapDbUserToModel cAliceRow) cEnv.freshId cEnv.now) "tok-1" true
    rfl (by decide) (by decide) (by decide)

/-- Counterexample to C10: `update` on a nonexistent id does not yield a
NotFound signal — the UPDATE matches no row, `result.rows[0]` is `undefined`
and `mapDbUserToModel` throws a TypeError, which the profile-update endpoint
surfaces as a 500 internal error rather than a 404. -/
theorem update_missing_id_internal_error :
    UserRepository.update cEnv [cRow] "uuid-bob" [("firstName", JsVal.vstr "Bob")] =
      .error .typeError ∧
    (UserController.updateProfile cEnv [cRow] "uuid-bob"
        { firstName := some "Bob" }).1.status = 500 :=
  ⟨rfl, rfl⟩

/-- C10 as amended: `findById` and `findByEmail` report a missing record
with a `null` not-found signal that callers can distinguish from validation
errors, but `update` on a nonexistent id raises an internal TypeError (from
mapping the absent RETURNING row), not a NotFound signal. -/
theorem missing_record_signals (env : Env) (store : List DbRow)
    (id email : String) (upds : List (String × JsVal))
    (hid : ∀ r ∈ store, r.id ≠ id) (hem : ∀ r ∈ store, r.email ≠ email) :
    UserRepository.findById env store id = none ∧
    UserRepository.findByEmail env store email = none ∧
    UserRepository.update env store id upds = .error .typeError := by
  have hfid : store.filter (fun r => r.id = id) = [] :=
    List.filter_eq_nil_iff.mpr (fun a ha => by simpa using hid a ha)
  have hfem : store.filter (fun r => r.email = email) = [] :=
    List.filter_eq_nil_iff.mpr (fun a ha => by simpa using hem a ha)
  refine ⟨?_, ?_, ?_⟩
  · unfold UserRepository.findById
    rw [hfid]
  · unfold UserRepository.findByEmail
    rw [hfem]
  · unfold UserRepository.update
    rw [updateRows_ok_of_total _ (fun r0 => r0) id store
      (fun r0 hm h2 => absurd h2 (hid r0 hm)), hfid]
    rfl

/-- Witness for C10 as amended: on the one-user store, a missing id and a
missing email give the not-found signal from the lookups, while `update`
with the missing id crashes with the TypeError. -/
theorem missing_record_signals_witness :
    UserRepository.findById cEnv [cRow] "uuid-bob" = none ∧
    UserRepository.findByEmail cEnv [cRow] "bob@example.com" = none ∧
    UserRepository.update cEnv [cRow] "uuid-bob" [("firstName", JsVal.vstr "X")] =
      .error .typeError :=
  missing_record_signals cEnv [cRow] "uuid-bob" "bob@example.com"
    [("firstName", JsVal.vstr "X")] (by decide) (by decide)

end EquestrianAuth
